import Mathlib

set_option maxRecDepth 8000

/-!
Verification development for the lightnovel-crawler crawl engine.

Shallow embedding of the pure/control logic of:
- `src/utils.js` (`parseRange`, `writeFile`) — file `src/unnamed/part_000`
- `src/core/scraper.js` (the `Scraper` orchestrator: `getChaptersToScrape`,
  `scrapeChapters`, `scrapeChapter` commit step, `initState`, `loadState`,
  `saveState`)
- `src/core/browser.js` (`BrowserManager.waitForNetworkIdle`,
  `page.safeWaitForLoadState`)
- `src/adapters/mtlbooks.js` (`extractChapterContent` container selection)

JavaScript values are modelled as follows: machine numbers that stay small
non-negative integers are `Nat` (chapter indices, timestamps, counters), JS
`parseInt` results are `Option Int` (`none` = `NaN`), thrown errors /
rejected promises are an explicit result type, and `undefined` is `Option`.
String scanning primitives (`split`, `trim`) are implemented structurally
over `List Char` so that every definition evaluates inside the kernel.
-/

/-- Result of a JavaScript async function: a resolved value or a
rejected/thrown error carrying the error message. -/
inductive JsResult (α : Type) where
  | ok (val : α)
  | err (msg : String)
deriving DecidableEq, Repr

/- ### String scanning primitives (JavaScript `String.prototype` behavior) -/

/-- `s.split(sep)` for a one-character separator: splitting `""` yields
`[""]`, a leading/trailing separator yields a leading/trailing empty part. -/
def splitOnChar (sep : Char) : List Char → List (List Char)
  | [] => [[]]
  | c :: rest =>
      if c = sep then [] :: splitOnChar sep rest
      else
        match splitOnChar sep rest with
        | [] => [[c]]
        | part :: parts => (c :: part) :: parts

/-- `s.trim()`: strip leading and trailing whitespace. -/
def trimChars (cs : List Char) : List Char :=
  ((cs.dropWhile Char.isWhitespace).reverse.dropWhile Char.isWhitespace).reverse

example : splitOnChar '-' "-1".data = ["".data, "1".data] := by decide
example : splitOnChar '-' "8-".data = ["8".data, "".data] := by decide
example : splitOnChar ',' "0,-1,abc".data = ["0".data, "-1".data, "abc".data] := by decide

/- ### Section 1: `parseRange` from src/utils.js (src/unnamed/part_000 lines 74-100)

`parseRange(rangeStr, totalChapters)`:
```
if (!rangeStr || rangeStr === 'all') return [1..totalChapters];
for each comma-separated, trimmed token:
  if token contains '-':
    [startStr, endStr] = token.split('-')
    start = parseInt(startStr) || 1
    end = endStr ? parseInt(endStr) : totalChapters
    for (i = start; i <= Math.min(end, totalChapters); i++) chapters.add(i)
  else:
    num = parseInt(token); if (num > 0 && num <= totalChapters) chapters.add(num)
return Array.from(chapters).sort(ascending)
```
-/

/-- The longest leading run of decimal digits of a character list
(the prefix JavaScript `parseInt` consumes after the sign). -/
def leadingDigits : List Char → List Char
  | [] => []
  | c :: rest => if c.isDigit then c :: leadingDigits rest else []

/-- Value of a list of decimal digit characters. -/
def digitsToNat (ds : List Char) : Nat :=
  ds.foldl (fun n c => n * 10 + (c.toNat - 48)) 0

/-- JavaScript `parseInt(s)` (radix 10) on an already-trimmed string:
an optional sign followed by the longest digit prefix; `none` models `NaN`
(no digits at all). -/
def jsParseInt (s : List Char) : Option Int :=
  match s with
  | '-' :: rest =>
      let ds := leadingDigits rest
      if ds.isEmpty then none else some (-(digitsToNat ds : Int))
  | '+' :: rest =>
      let ds := leadingDigits rest
      if ds.isEmpty then none else some ((digitsToNat ds : Int))
  | cs =>
      let ds := leadingDigits cs
      if ds.isEmpty then none else some ((digitsToNat ds : Int))

/-- The list `[start, start+1, ..., stop]` over `Int` (empty when
`stop < start`): the values visited by `for (let i = start; i <= stop; i++)`. -/
def intervalList (start stop : Int) : List Int :=
  if stop < start then []
  else (List.range (stop - start + 1).toNat).map (fun k => start + (k : Int))

/-- `Set.prototype.add`: insertion-ordered set accumulation. -/
def addChapter (acc : List Int) (i : Int) : List Int :=
  if i ∈ acc then acc else acc ++ [i]

/-- One token of the range expression (already trimmed), accumulated into the
chapter set, mirroring the loop body of `parseRange`. -/
def parseRangeToken (totalChapters : Nat) (acc : List Int) (range : List Char) : List Int :=
  if range.contains '-' then
    let parts := splitOnChar '-' range
    let startStr := parts.headD []
    -- `const [startStr, endStr] = range.split('-')`: the second component,
    -- `undefined` (= `none`) when fewer than two parts exist
    let endStr? := parts.get? 1
    -- `parseInt(startStr) || 1`: NaN and 0 are falsy
    let start : Int :=
      match jsParseInt startStr with
      | none => 1
      | some n => if n = 0 then 1 else n
    -- `endStr ? parseInt(endStr) : totalChapters`: `undefined` and `""` are falsy
    let stop? : Option Int :=
      match endStr? with
      | some es => if es.isEmpty then some (totalChapters : Int) else jsParseInt es
      | none => some (totalChapters : Int)
    match stop? with
    | none => acc  -- `i <= Math.min(NaN, total)` never holds: loop body never runs
    | some stop => (intervalList start (min stop (totalChapters : Int))).foldl addChapter acc
  else
    match jsParseInt range with
    | none => acc
    | some num => if 0 < num ∧ num ≤ (totalChapters : Nat) then addChapter acc num else acc

/-- `parseRange(rangeStr, totalChapters)` from src/utils.js: resolves a range
expression to the ascending list of selected chapter indices. -/
def parseRange (rangeStr : String) (totalChapters : Nat) : List Int :=
  if rangeStr = "" ∨ rangeStr = "all" then
    (List.range totalChapters).map (fun i => ((i : Int) + 1))
  else
    let ranges := (splitOnChar ',' rangeStr.data).map trimChars
    let chapters := ranges.foldl (parseRangeToken totalChapters) []
    chapters.insertionSort (fun a b => a ≤ b)

example : parseRange "all" 10 = [1,2,3,4,5,6,7,8,9,10] := by decide
example : parseRange "3-5" 10 = [3,4,5] := by decide
example : parseRange "8-" 5 = [] := by decide
example : parseRange "0,-1,abc" 10 = [1] := by decide
example : parseRange "2,2,1-3" 10 = [1,2,3] := by decide
example : parseRange "1-50" 60 = (List.range 50).map (fun i => ((i : Int) + 1)) := by decide
example : parseRange "120-" 5 = [] := by decide
example : parseRange "3-" 5 = [3,4,5] := by decide

/- ### Section 2: crawl state data model (src/core/scraper.js) -/

/-- One entry of the chapter listing, as produced by
`MtlBooksAdapter.extractChapterList`: `{ index, id, title, url }`. -/
structure ChapterInfo where
  index : Nat
  id : String
  title : String
  url : String
deriving DecidableEq, Repr

/-- The `lastUpdated` field of the crawl state: a JavaScript `Date` object
(carrying its epoch-milliseconds timestamp) right after `initState` or a
chapter commit, or a plain string after a JSON round trip. -/
inductive TimeVal where
  | date (millis : Nat)
  | str (s : String)
deriving DecidableEq, Repr

/-- Models `Date.prototype.toISOString` abstractly as a rendering of the
timestamp into a string; only the fact that a `Date` serializes to a string
matters to the theorems below, not the exact text. -/
def toISOString (millis : Nat) : String :=
  "epoch-ms:" ++ toString millis

/-- Novel metadata, as produced by `MtlBooksAdapter.extractMetadata`:
`{ title, author?, coverUrl?, synopsis?, tags?, status?, totalChapters,
sourceUrl, crawledAt }` (optional fields are `undefined` when absent). -/
structure NovelMetadata where
  title : String
  author : Option String
  coverUrl : Option String
  synopsis : Option String
  tags : Option (List String)
  status : Option String
  totalChapters : Nat
  sourceUrl : String
  crawledAt : String
deriving DecidableEq, Repr

/-- The checkpointed crawl state (`Scraper.initState` shape):
`{ url, metadata, chapters, lastCompletedIndex, completedChapters,
lastUpdated }`. -/
structure CrawlState where
  url : String
  metadata : Option NovelMetadata
  chapters : List ChapterInfo
  lastCompletedIndex : Nat
  completedChapters : List String
  lastUpdated : TimeVal
deriving DecidableEq, Repr

/-- `Scraper.initState()`: fresh state for `config.url`, with `lastUpdated`
set to `new Date()` (the current time is a parameter of the model). -/
def initState (url : String) (now : Nat) : CrawlState :=
  { url := url
    metadata := none
    chapters := []
    lastCompletedIndex := 0
    completedChapters := []
    lastUpdated := .date now }

/-- The scraper configuration fields used by the embedded operations
(`Scraper.constructor` defaults: `force: false`, no range). -/
structure ScraperConfig where
  range : Option String := none
  force : Bool := false
  outputDir : String := "./output"
deriving Repr

/- ### Section 3: `Scraper.getChaptersToScrape` (src/core/scraper.js lines 537-566) -/

/-- The target index list of `getChaptersToScrape`: `parseRange` when a range
expression is configured (a non-empty string is truthy), otherwise
`Array.from({length: n}, (_, i) => i + 1)`. -/
def resolvedRange (config : ScraperConfig) (n : Nat) : List Int :=
  match config.range with
  | some r => if r = "" then (List.range n).map (fun i => ((i : Int) + 1)) else parseRange r n
  | none => (List.range n).map (fun i => ((i : Int) + 1))

/-- `Scraper.getChaptersToScrape()`: empty when no chapters are known,
otherwise the chapters whose index is in the resolved range, skipping
already-completed ids unless force mode is set. -/
def getChaptersToScrape (config : ScraperConfig) (state : CrawlState) : List ChapterInfo :=
  if state.chapters.isEmpty then []
  else
    let targetIndexes := resolvedRange config state.chapters.length
    state.chapters.filter (fun chapter =>
      if !(targetIndexes.contains (chapter.index : Int)) then false
      else if !config.force && state.completedChapters.contains chapter.id then false
      else true)

/- ### Section 4: checkpoint save/load (`Scraper.saveState` / `Scraper.loadState`)

`saveState` writes `JSON.stringify(this.state, null, 2)` to
`outputDir/state.json`; `loadState` reads the file, does
`this.state = JSON.parse(stateData)` and migrates a missing
`completedChapters` field to `[]`. The JSON document is modelled as a value
of the `Json` type below; `JSON.parse(JSON.stringify(...))` of a document
is the identity on that value, so the file round trip is
`stateOfJson (stateToJson S)`. `JSON.stringify` omits object keys whose
value is `undefined` and serializes a `Date` via `toISOString`. -/

/-- A JSON document (the numbers appearing in a crawl state are
non-negative integers). -/
inductive Json where
  | null
  | str (s : String)
  | num (n : Nat)
  | arr (elems : List Json)
  | obj (fields : List (String × Json))

/-- Key lookup among the fields of a JSON object (property access on a
parsed JavaScript object). -/
def lookupField : List (String × Json) → String → Option Json
  | [], _ => none
  | (k, v) :: rest, key => if k = key then some v else lookupField rest key

/-- Property access `j[key]`: `none` models `undefined`. -/
def Json.getField : Json → String → Option Json
  | .obj fields, key => lookupField fields key
  | _, _ => none

/-- A string-valued JSON field. -/
def Json.asStr : Json → Option String
  | .str s => some s
  | _ => none

/-- A number-valued JSON field. -/
def Json.asNat : Json → Option Nat
  | .num n => some n
  | _ => none

/-- An array-valued JSON field. -/
def Json.asArr : Json → Option (List Json)
  | .arr elems => some elems
  | _ => none

/-- An optional object entry: present when the value is defined, omitted by
`JSON.stringify` when it is `undefined`. -/
def optField (key : String) (v : Option Json) : List (String × Json) :=
  match v with
  | some j => [(key, j)]
  | none => []

/-- Serialization of the metadata object (insertion order of
`extractMetadata`'s object literal; `undefined` fields omitted). -/
def NovelMetadata.toJson (m : NovelMetadata) : Json :=
  .obj ([("title", Json.str m.title)] ++
    optField "author" (m.author.map Json.str) ++
    optField "coverUrl" (m.coverUrl.map Json.str) ++
    optField "synopsis" (m.synopsis.map Json.str) ++
    optField "tags" (m.tags.map (fun ts => Json.arr (ts.map Json.str))) ++
    optField "status" (m.status.map Json.str) ++
    [("totalChapters", Json.num m.totalChapters),
     ("sourceUrl", Json.str m.sourceUrl),
     ("crawledAt", Json.str m.crawledAt)])

/-- Decoding a list of JSON strings. -/
def parseStrList : List Json → Option (List String)
  | [] => some []
  | j :: rest =>
      match j.asStr, parseStrList rest with
      | some s, some ss => some (s :: ss)
      | _, _ => none

/-- Reading the metadata object back from its parsed JSON form. -/
def NovelMetadata.ofJson (j : Json) : Option NovelMetadata :=
  match (j.getField "title").bind Json.asStr,
        (j.getField "totalChapters").bind Json.asNat,
        (j.getField "sourceUrl").bind Json.asStr,
        (j.getField "crawledAt").bind Json.asStr with
  | some title, some total, some src, some crawled =>
      some { title := title
             author := (j.getField "author").bind Json.asStr
             coverUrl := (j.getField "coverUrl").bind Json.asStr
             synopsis := (j.getField "synopsis").bind Json.asStr
             tags := ((j.getField "tags").bind Json.asArr).bind parseStrList
             status := (j.getField "status").bind Json.asStr
             totalChapters := total
             sourceUrl := src
             crawledAt := crawled }
  | _, _, _, _ => none

/-- Serialization of one chapter entry. -/
def ChapterInfo.toJson (c : ChapterInfo) : Json :=
  .obj [("index", Json.num c.index), ("id", Json.str c.id),
        ("title", Json.str c.title), ("url", Json.str c.url)]

/-- Reading one chapter entry back. -/
def ChapterInfo.ofJson (j : Json) : Option ChapterInfo :=
  match (j.getField "index").bind Json.asNat,
        (j.getField "id").bind Json.asStr,
        (j.getField "title").bind Json.asStr,
        (j.getField "url").bind Json.asStr with
  | some index, some id, some title, some url =>
      some { index := index, id := id, title := title, url := url }
  | _, _, _, _ => none

/-- Decoding the chapters array. -/
def parseChapterList : List Json → Option (List ChapterInfo)
  | [] => some []
  | j :: rest =>
      match ChapterInfo.ofJson j, parseChapterList rest with
      | some c, some cs => some (c :: cs)
      | _, _ => none

/-- `JSON.stringify` of `lastUpdated`: a `Date` serializes through
`toISOString` (its `toJSON`), a string stays itself. -/
def TimeVal.serialize : TimeVal → String
  | .date millis => toISOString millis
  | .str s => s

/-- `JSON.stringify(this.state, null, 2)` as a JSON document (key order of
`initState`'s object literal). -/
def CrawlState.toJson (s : CrawlState) : Json :=
  .obj [("url", Json.str s.url),
        ("metadata", match s.metadata with
                     | some m => m.toJson
                     | none => Json.null),
        ("chapters", Json.arr (s.chapters.map ChapterInfo.toJson)),
        ("lastCompletedIndex", Json.num s.lastCompletedIndex),
        ("completedChapters", Json.arr (s.completedChapters.map Json.str)),
        ("lastUpdated", Json.str s.lastUpdated.serialize)]

/-- The `metadata` field after `JSON.parse`: `null` stays `null` (no
metadata), an object is read back. -/
def metadataOfField : Option Json → Option (Option NovelMetadata)
  | some .null => some none
  | some j => (NovelMetadata.ofJson j).map some
  | none => none

/-- The `completedChapters` field after `JSON.parse`, including the
`loadState` migration step `if (!this.state.completedChapters)
this.state.completedChapters = []`: a missing field becomes `[]`. -/
def completedOfField : Option Json → Option (List String)
  | some (.arr xs) => parseStrList xs
  | some _ => none
  | none => some []

/-- `Scraper.loadState`'s `JSON.parse` of a saved checkpoint document, read
back into the typed crawl state (with the migration step). -/
def CrawlState.ofJson (j : Json) : Option CrawlState :=
  match (j.getField "url").bind Json.asStr,
        metadataOfField (j.getField "metadata"),
        ((j.getField "chapters").bind Json.asArr).bind parseChapterList,
        (j.getField "lastCompletedIndex").bind Json.asNat,
        completedOfField (j.getField "completedChapters"),
        (j.getField "lastUpdated").bind Json.asStr with
  | some url, some md, some chs, some lci, some comp, some lu =>
      some { url := url
             metadata := md
             chapters := chs
             lastCompletedIndex := lci
             completedChapters := comp
             lastUpdated := .str lu }
  | _, _, _, _, _, _ => none

/-- `saveState` followed by `loadState` on the same location: the state
written as JSON and parsed back. -/
def saveThenLoad (s : CrawlState) : Option CrawlState :=
  CrawlState.ofJson s.toJson

/-- `path.join(outputDir, 'state.json')`, abstracted as string
concatenation with a separator. -/
def stateFilePath (outputDir : String) : String :=
  outputDir ++ "/state.json"

/-- `Scraper.saveState()` (src/core/scraper.js lines 768-771): serializes the
state and performs the file write through the given writer capability
(`writeFile` from `src/utils.js`); there is no surrounding `try`/`catch`, so
the body is exactly the write. -/
def saveState (write : String → Json → JsResult Unit) (config : ScraperConfig)
    (state : CrawlState) : JsResult Unit :=
  write (stateFilePath config.outputDir) state.toJson

/- ### Section 5: `BrowserManager.waitForNetworkIdle` (src/core/browser.js lines 223-262)

```
onRequest  = () => { if (idleTimer) clearTimeout(idleTimer); };
onResponse = () => { if (idleTimer) clearTimeout(idleTimer);
                     idleTimer = setTimeout(() => resolve(), idleTime); };
idleTimer = setTimeout(() => resolve(), idleTime);          // started at t = 0
timeoutTimer = setTimeout(() => reject(Error('Network idle timeout')), timeout);
```
The wait over a finite trace of timestamped request/response events (times
in milliseconds, listed in arrival order) is modelled by tracking the
pending idle-timer deadline: a `request` handler cancels it without
starting a new one, a `response` handler restarts it at `t + idleTime`.
The promise resolves at the first pending deadline that elapses before the
next event, provided it precedes the `timeout` deadline, and otherwise
rejects when `timeoutTimer` fires (a deadline falling exactly on `timeout`
is counted as rejected). -/

/-- A network activity event observed on the page. -/
inductive NetEvent where
  | request
  | response
deriving DecidableEq, Repr

/-- The pending idle-timer deadline after the handler for an event at time
`t` has run: `onRequest` only clears the timer, `onResponse` clears it and
starts a new one expiring at `t + idleTime`. -/
def handleEvent (idleTime : Nat) (t : Nat) : NetEvent → Option Nat
  | .request => none
  | .response => some (t + idleTime)

/-- The time at which the idle timer first fires, given the pending deadline
and the remaining events: a pending deadline that elapses at or before the
next event's time fires; otherwise the event's handler replaces it. `none`
when the trace ends with no pending deadline. -/
def firstIdleFire (idleTime : Nat) : Option Nat → List (Nat × NetEvent) → Option Nat
  | pending, [] => pending
  | pending, (t, e) :: rest =>
      match pending with
      | some d =>
          if d ≤ t then some d
          else firstIdleFire idleTime (handleEvent idleTime t e) rest
      | none => firstIdleFire idleTime (handleEvent idleTime t e) rest

/-- Resolution of the quiescence wait. -/
inductive IdleResult where
  | settled (t : Nat)
  | rejected (msg : String)
deriving DecidableEq, Repr

/-- Whether the wait resolved (rather than rejected). -/
def IdleResult.isSettled : IdleResult → Bool
  | .settled _ => true
  | .rejected _ => false

/-- `waitForNetworkIdle(page, timeout, idleTime)` over an event trace: the
initial idle timer is pending at `idleTime`; the wait settles when the idle
timer fires before `timeout`, and rejects with `'Network idle timeout'`
when `timeoutTimer` fires first. -/
def waitForNetworkIdle (timeout idleTime : Nat) (trace : List (Nat × NetEvent)) : IdleResult :=
  match firstIdleFire idleTime (some idleTime) trace with
  | some d => if d < timeout then .settled d else .rejected "Network idle timeout"
  | none => .rejected "Network idle timeout"

/-- `page.safeWaitForLoadState` (src/core/browser.js lines 173-186): always
delegates to `waitForNetworkIdle(page)` with its default arguments
`timeout = 30000`, `idleTime = 500`, and awaits it with no `catch`, so a
rejection propagates to the caller. -/
def safeWaitForLoadState (trace : List (Nat × NetEvent)) : JsResult Unit :=
  match waitForNetworkIdle 30000 500 trace with
  | .settled _ => .ok ()
  | .rejected msg => .err msg

example : waitForNetworkIdle 30000 500 [] = .settled 500 := by decide
example : waitForNetworkIdle 30000 500 [(0, .response)] = .settled 500 := by decide
example : waitForNetworkIdle 30000 500 [(0, .request)] = .rejected "Network idle timeout" := by
  decide
example : waitForNetworkIdle 30000 500 [(0, .request), (100, .response)] = .settled 600 := by
  decide

/- ### Section 6: `MtlBooksAdapter.extractChapterContent` container selection
(src/adapters/mtlbooks.js lines 239-263)

```
for (const selector of contentSelectors) {
  contentContainer = document.querySelector(selector);
  if (contentContainer && contentContainer.textContent.trim().length > 100) break;
}
if (!contentContainer) throw new Error('Content container not found');
```
A page is modelled as the `querySelector` function from selector strings to
the matched element (if any), an element by its text content. -/

/-- A DOM element candidate, identified by its text content. -/
structure DomElement where
  text : String
deriving DecidableEq, Repr

/-- The ordered content-container selector list of `extractChapterContent`. -/
def contentSelectors : List String :=
  [".chapter-content", ".content", ".chapter-body", ".novel-content",
   ".reader-content", ".text-content", "#content", ".post-content",
   "[class*=\"content\"]"]

/-- The loop's break condition: a matched element whose trimmed text exceeds
100 characters. -/
def passesThreshold (el : Option DomElement) : Bool :=
  match el with
  | some e => 100 < (trimChars e.text.data).length
  | none => false

/-- The selector loop: `contentContainer` is overwritten by each
`querySelector` result; the loop breaks early on the first result passing
the threshold, and otherwise leaves the last result in place. -/
def selectContainerLoop (page : String → Option DomElement) :
    List String → Option DomElement → Option DomElement
  | [], current => current
  | sel :: rest, _ =>
      let candidate := page sel
      if passesThreshold candidate then candidate
      else selectContainerLoop page rest candidate

/-- The container selection of `extractChapterContent`: runs the selector
loop and throws `'Content container not found'` exactly when the final
`contentContainer` is `null`. -/
def extractContentContainer (page : String → Option DomElement) : JsResult DomElement :=
  match selectContainerLoop page contentSelectors none with
  | none => .err "Content container not found"
  | some el => .ok el

/-- The first selector result passing the threshold, if any (the element the
loop breaks on). -/
def firstPassingContainer (page : String → Option DomElement) :
    List String → Option DomElement
  | [] => none
  | sel :: rest =>
      if passesThreshold (page sel) then page sel
      else firstPassingContainer page rest

/-- The result left in `contentContainer` when no selector passes the
threshold: the last selector's `querySelector` result. -/
def lastQueryResult (page : String → Option DomElement) :
    List String → Option DomElement → Option DomElement
  | [], current => current
  | sel :: rest, _ => lastQueryResult page rest (page sel)

/- ### Section 7: `Scraper.scrapeChapters` (src/core/scraper.js lines 571-603)

Each chapter is mapped to a task whose body awaits `scrapeChapter` inside
`try`, incrementing the progress tracker on success; the `catch` arm calls
`progress.addError()`, logs, and returns `{ success: false, chapter, error }`
instead of rethrowing, so `Promise.all` receives one settled result per
scheduled chapter (on success the task function returns `undefined`).
A run is modelled by the success oracle `ok` telling whether
`scrapeChapter` (all retries included) succeeds for a chapter. -/

/-- The settled value of one task: `none` models `undefined` (the task body
completed), `some chapter` models the caught-failure record
`{ success: false, chapter, error }`. -/
def runTask (ok : ChapterInfo → Bool) (chapter : ChapterInfo) : Option ChapterInfo :=
  if ok chapter then none else some chapter

/-- `await Promise.all(tasks)`: the list of settled task values, one per
scheduled chapter. -/
def scrapeChaptersResults (ok : ChapterInfo → Bool) (chapters : List ChapterInfo) :
    List (Option ChapterInfo) :=
  chapters.map (runTask ok)

/-- The progress tracker counters (`src/utils.js` `ProgressTracker`):
`current` is incremented once per completed task, `errors` once per caught
task failure. -/
structure ProgressCounts where
  current : Nat
  errors : Nat
deriving DecidableEq, Repr

/-- The effect of one settled task on the progress tracker:
`progress.increment()` on completion, `progress.addError()` on a caught
failure. -/
def progressStep (ok : ChapterInfo → Bool) (p : ProgressCounts) (chapter : ChapterInfo) :
    ProgressCounts :=
  if ok chapter then { p with current := p.current + 1 }
  else { p with errors := p.errors + 1 }

/-- The progress counters after all tasks settle: the fold of
`progress.increment()` / `progress.addError()` over the scheduled chapters. -/
def progressAfter (ok : ChapterInfo → Bool) (chapters : List ChapterInfo) : ProgressCounts :=
  chapters.foldl (progressStep ok) ⟨0, 0⟩

/- ### Section 8: the commit step of `Scraper.scrapeChapter`
(src/core/scraper.js lines 626-633)

```
if (!this.state.completedChapters.includes(chapterInfo.id)) {
  this.state.completedChapters.push(chapterInfo.id);
}
this.state.lastCompletedIndex = Math.max(this.state.lastCompletedIndex || 0,
                                         chapterInfo.index);
this.state.lastUpdated = new Date();
```
-/

/-- The state mutation committed after one successful chapter fetch. -/
def commitChapter (now : Nat) (state : CrawlState) (chapter : ChapterInfo) : CrawlState :=
  { state with
    completedChapters :=
      if state.completedChapters.contains chapter.id then state.completedChapters
      else state.completedChapters ++ [chapter.id]
    lastCompletedIndex := max state.lastCompletedIndex chapter.index
    lastUpdated := .date now }

/-- A sequence of successful chapter commits (each with the wall-clock time
at which it lands), applied in order to a starting state. -/
def commitAll (commits : List (ChapterInfo × Nat)) (state : CrawlState) : CrawlState :=
  commits.foldl (fun s p => commitChapter p.2 s p.1) state

/- ### Concrete fixtures used by witnesses and counterexamples -/

/-- Chapter `i` with the stable id `chapter-<i>` produced by
`extractChapterList`. -/
def sampleChapter (i : Nat) : ChapterInfo :=
  { index := i
    id := "chapter-" ++ toString i
    title := "Chapter " ++ toString i
    url := "https://mtlbooks.com/novel/x/chapter-" ++ toString i }

/-- Chapters c1..c5. -/
def sampleChapters5 : List ChapterInfo :=
  [sampleChapter 1, sampleChapter 2, sampleChapter 3, sampleChapter 4, sampleChapter 5]

/-- A crawl state with chapters c1..c5 and completed set `{c1, c3}`. -/
def sampleState5 : CrawlState :=
  { url := "https://mtlbooks.com/novel/x"
    metadata := none
    chapters := sampleChapters5
    lastCompletedIndex := 3
    completedChapters := ["chapter-1", "chapter-3"]
    lastUpdated := .date 0 }

/-- Chapters c1..c3. -/
def sampleChapters3 : List ChapterInfo :=
  [sampleChapter 1, sampleChapter 2, sampleChapter 3]

/-- A success oracle under which exactly the task for `chapter-2` fails. -/
def failOnlyChapter2 : ChapterInfo → Bool :=
  fun c => !(c.id == "chapter-2")

/-- A skeleton/placeholder page: only the final fallback selector matches,
and its text is far below the 100-character threshold. -/
def skeletonPage : String → Option DomElement :=
  fun sel => if sel = "[class*=\"content\"]" then some { text := "Loading..." } else none

/-- A body of real chapter text, longer than 100 characters. -/
def longChapterText : String :=
  String.mk (List.replicate 150 'a')

/-- A fully rendered page: the first selector matches a container holding
the full chapter text. -/
def richPage : String → Option DomElement :=
  fun sel => if sel = ".chapter-content" then some { text := longChapterText } else none

/-- A freshly initialized state (its `lastUpdated` is a `Date`). -/
def freshSampleState : CrawlState :=
  initState "https://mtlbooks.com/novel/x" 0

/-- A state as it looks after being loaded from a checkpoint
(its `lastUpdated` is already a plain string). -/
def sampleLoadedState : CrawlState :=
  { url := "https://mtlbooks.com/novel/x"
    metadata := none
    chapters := sampleChapters3
    lastCompletedIndex := 2
    completedChapters := ["chapter-1", "chapter-2"]
    lastUpdated := .str "epoch-ms:12345" }

/- ### Theorems ### -/

/- #### C6: `parseRange("0,-1,abc", 10)` -/

/-- C6 counterexample: `parseRange("0,-1,abc", 10)` is not the empty set —
it is `{1}`. -/
theorem parseRange_malformed_counterexample :
    parseRange "0,-1,abc" 10 = [1] ∧ parseRange "0,-1,abc" 10 ≠ [] := by decide

/-- C6 (amended): the out-of-range bare token `0` and the unparseable token
`abc` contribute nothing, but `-1` is not ignored: it is split at its dash
into an interval whose empty start defaults to 1 and whose end parses to 1,
so it contributes `{1}`; hence `parseRange("0,-1,abc", 10) = {1}`. -/
theorem parseRange_malformed_tokens :
    parseRange "0" 10 = [] ∧
    parseRange "abc" 10 = [] ∧
    parseRange "-1" 10 = [1] ∧
    parseRange "0,-1,abc" 10 = [1] := by decide

/- #### C7: `parseRange("8-", 5)` -/

/-- C7 counterexample: `parseRange("8-", 5)` is not `{5}` — it is empty. -/
theorem parseRange_openInterval_counterexample :
    parseRange "8-" 5 = [] ∧ parseRange "8-" 5 ≠ [5] := by decide

/-- C7 (amended): an open interval `A-` means `A..total`; only the upper end
is clamped by `total` and the start is never lowered, so `8-` with
`total = 5` is the empty interval `8..5` and contributes nothing, while
`3-` with `total = 5` yields `{3,4,5}`. -/
theorem parseRange_openInterval :
    parseRange "8-" 5 = [] ∧ parseRange "3-" 5 = [3, 4, 5] := by decide

/- #### Helper lemmas for C3 and C10 -/

/-- A fold of progress updates adds exactly one count per chapter. -/
theorem progress_foldl_sum (ok : ChapterInfo → Bool) (chapters : List ChapterInfo)
    (p : ProgressCounts) :
    (chapters.foldl (progressStep ok) p).current + (chapters.foldl (progressStep ok) p).errors =
      p.current + p.errors + chapters.length := by
  induction chapters generalizing p with
  | nil => simp
  | cons c rest ih =>
      by_cases h : ok c <;> simp [progressStep, h, ih] <;> omega

/-- The commit step preserves distinctness of `completedChapters`. -/
theorem commitChapter_nodup (now : Nat) (state : CrawlState) (chapter : ChapterInfo)
    (h : state.completedChapters.Nodup) :
    (commitChapter now state chapter).completedChapters.Nodup := by
  by_cases hc : chapter.id ∈ state.completedChapters
  · simpa [commitChapter, List.contains, List.elem_eq_mem, hc] using h
  · simp [commitChapter, List.contains, List.elem_eq_mem, hc, List.nodup_append, h,
      List.disjoint_singleton]

/-- A sequence of commits preserves distinctness of `completedChapters`. -/
theorem commitAll_nodup (commits : List (ChapterInfo × Nat)) (state : CrawlState)
    (h : state.completedChapters.Nodup) :
    (commitAll commits state).completedChapters.Nodup := by
  induction commits generalizing state with
  | nil => simpa [commitAll] using h
  | cons c rest ih =>
      have : commitAll (c :: rest) state = commitAll rest (commitChapter c.2 state c.1) := by
        simp [commitAll]
      rw [this]
      exact ih _ (commitChapter_nodup _ _ _ h)

/- #### C10: `completedChapters` never holds a duplicate id -/

/-- C10: starting from `initState` (whose completed list is empty), every
sequence of successful chapter commits leaves `completedChapters` with
pairwise-distinct elements, because the commit step appends an id only when
it is not already present. -/
theorem completedChapters_nodup (url : String) (now : Nat)
    (commits : List (ChapterInfo × Nat)) :
    (commitAll commits (initState url now)).completedChapters.Nodup :=
  commitAll_nodup commits (initState url now) (by simp [initState])

/- #### C3: scheduler fault isolation -/

/-- C3: when the task for exactly one chapter fails (retries exhausted), the
failure is caught at the task boundary (its settled value is the
`{success: false}` record, not a rejection), every other chapter's task
still completes, `Promise.all` receives one settled result per scheduled
chapter, and completed count plus error count equals the scheduled count. -/
theorem scrapeChapters_fault_isolation (chapters : List ChapterInfo)
    (ok : ChapterInfo → Bool) (bad : ChapterInfo)
    (hmem : bad ∈ chapters) (hbad : ok bad = false)
    (hothers : ∀ c ∈ chapters, c ≠ bad → ok c = true) :
    (scrapeChaptersResults ok chapters).length = chapters.length ∧
    runTask ok bad = some bad ∧
    some bad ∈ scrapeChaptersResults ok chapters ∧
    (∀ c ∈ chapters, c ≠ bad → runTask ok c = none) ∧
    (progressAfter ok chapters).current + (progressAfter ok chapters).errors =
      chapters.length := by
  refine ⟨by simp [scrapeChaptersResults], by simp [runTask, hbad], ?_, ?_, ?_⟩
  · exact List.mem_map.mpr ⟨bad, hmem, by simp [runTask, hbad]⟩
  · intro c hc hne
    simp [runTask, hothers c hc hne]
  · simpa using progress_foldl_sum ok chapters ⟨0, 0⟩

/-- C3 witness: three scheduled chapters with only c2's task failing. -/
theorem scrapeChapters_fault_isolation_witness :
    (scrapeChaptersResults failOnlyChapter2 sampleChapters3).length = 3 ∧
    runTask failOnlyChapter2 (sampleChapter 2) = some (sampleChapter 2) ∧
    some (sampleChapter 2) ∈ scrapeChaptersResults failOnlyChapter2 sampleChapters3 ∧
    runTask failOnlyChapter2 (sampleChapter 1) = none ∧
    (progressAfter failOnlyChapter2 sampleChapters3).current +
      (progressAfter failOnlyChapter2 sampleChapters3).errors = 3 := by
  have h := scrapeChapters_fault_isolation sampleChapters3 failOnlyChapter2
    (sampleChapter 2) (by decide) (by decide) (by decide)
  exact ⟨h.1, h.2.1, h.2.2.1, h.2.2.2.1 (sampleChapter 1) (by decide) (by decide), h.2.2.2.2⟩

/- #### C1: resume convergence of `getChaptersToScrape` -/

/-- The filter predicate of `getChaptersToScrape`, characterized: a chapter
passes iff its index is in the target list and (force mode, or its id is
not yet completed). -/
theorem scrapeFilter_eq (config : ScraperConfig) (state : CrawlState) (chapter : ChapterInfo) :
    (if !((resolvedRange config state.chapters.length).contains (chapter.index : Int)) then false
     else if !config.force && state.completedChapters.contains chapter.id then false
     else true) = true ↔
      ((chapter.index : Int) ∈ resolvedRange config state.chapters.length ∧
        (config.force = true ∨ chapter.id ∉ state.completedChapters)) := by
  by_cases h1 : (chapter.index : Int) ∈ resolvedRange config state.chapters.length <;>
    by_cases h2 : config.force = true <;>
    by_cases h3 : chapter.id ∈ state.completedChapters <;>
    simp [List.contains, List.elem_eq_mem, h1, h2, h3]

/-- C1: with chapters c1..c5 of indices 1..5, completed set `{c1, c3}` and
no range configured, `getChaptersToScrape` selects `{c2, c4, c5}` without
force and `{c1..c5}` with force; in general a chapter is scheduled iff its
index lies in the resolved range and (force is set or its id is not among
the completed ids). -/
theorem getChaptersToScrape_spec :
    getChaptersToScrape { range := none, force := false } sampleState5 =
      [sampleChapter 2, sampleChapter 4, sampleChapter 5] ∧
    getChaptersToScrape { range := none, force := true } sampleState5 = sampleChapters5 ∧
    ∀ (config : ScraperConfig) (state : CrawlState) (chapter : ChapterInfo),
      chapter ∈ getChaptersToScrape config state ↔
        (chapter ∈ state.chapters ∧
          (chapter.index : Int) ∈ resolvedRange config state.chapters.length ∧
          (config.force = true ∨ chapter.id ∉ state.completedChapters)) := by
  refine ⟨by decide, by decide, ?_⟩
  intro config state chapter
  unfold getChaptersToScrape
  by_cases hemp : state.chapters.isEmpty
  · have hnil : state.chapters = [] := by simpa [List.isEmpty_iff] using hemp
    simp [hemp, hnil]
  · simp only [hemp, Bool.false_eq_true, if_false, List.mem_filter]
    exact and_congr Iff.rfl (scrapeFilter_eq config state chapter)

/-- C1 witness: c2 (not yet completed) is scheduled in the concrete
five-chapter state. -/
theorem getChaptersToScrape_spec_witness :
    sampleChapter 2 ∈ getChaptersToScrape { range := none, force := false } sampleState5 :=
  (getChaptersToScrape_spec.2.2 { range := none, force := false } sampleState5
    (sampleChapter 2)).mpr ⟨by decide, by decide, Or.inr (by decide)⟩

/- #### Helper lemmas for C4 and C5 -/

/-- If the last trace event is a response at time `t` and every earlier
event happens no later than `t`, the idle timer fires, at the latest at
`t + idleTime`, whatever deadline is pending initially. -/
theorem firstIdleFire_last_response (idleTime : Nat) (evs : List (Nat × NetEvent)) (t : Nat)
    (hle : ∀ p ∈ evs, p.1 ≤ t) (pending : Option Nat) :
    ∃ d, firstIdleFire idleTime pending (evs ++ [(t, NetEvent.response)]) = some d ∧
      d ≤ t + idleTime := by
  induction evs generalizing pending with
  | nil =>
      cases pending with
      | none =>
          exact ⟨t + idleTime, by simp [firstIdleFire, handleEvent], Nat.le_refl _⟩
      | some d =>
          by_cases hd : d ≤ t
          · exact ⟨d, by simp [firstIdleFire, hd], Nat.le_trans hd (Nat.le_add_right t idleTime)⟩
          · exact ⟨t + idleTime, by simp [firstIdleFire, hd, handleEvent], Nat.le_refl _⟩
  | cons p rest ih =>
      obtain ⟨t0, e0⟩ := p
      have ht0 : t0 ≤ t := hle (t0, e0) (List.mem_cons_self _ _)
      have hrest : ∀ q ∈ rest, q.1 ≤ t := fun q hq => hle q (List.mem_cons_of_mem _ hq)
      cases pending with
      | none => simpa [firstIdleFire] using ih hrest (handleEvent idleTime t0 e0)
      | some d =>
          by_cases hd : d ≤ t0
          · exact ⟨d, by simp [firstIdleFire, hd],
              Nat.le_trans (Nat.le_trans hd ht0) (Nat.le_add_right t idleTime)⟩
          · simpa [firstIdleFire, hd] using ih hrest (handleEvent idleTime t0 e0)

/-- With no pending deadline, a trace consisting solely of requests never
starts an idle timer again. -/
theorem firstIdleFire_requests_none (idleTime : Nat) (rest : List (Nat × NetEvent))
    (hreq : ∀ p ∈ rest, p.2 = NetEvent.request) :
    firstIdleFire idleTime none rest = none := by
  induction rest with
  | nil => rfl
  | cons p tail ih =>
      obtain ⟨t, e⟩ := p
      have he : e = NetEvent.request := hreq (t, e) (List.mem_cons_self _ _)
      subst he
      simpa [firstIdleFire, handleEvent] using
        ih (fun q hq => hreq q (List.mem_cons_of_mem _ hq))

/- #### C5: idle-timer reset behavior -/

/-- C5 counterexample: a single request at time 0 followed by unbounded
silence — the event is followed by far more than `idleWindow = 500` ms of
silence well inside `maxTimeout = 30000`, yet the wait never settles: the
request handler cancels the idle timer without restarting it, and the wait
rejects at `maxTimeout`. -/
theorem idleTimer_request_counterexample :
    (waitForNetworkIdle 30000 500 [(0, NetEvent.request)]).isSettled = false ∧
    waitForNetworkIdle 30000 500 [(0, NetEvent.request)] =
      IdleResult.rejected "Network idle timeout" := by decide

/-- C5 (amended): only response events reset the idle timer to
`idleWindow`; a request event cancels the pending idle timer without
starting a new one. Consequently a trace whose last event is a response at
time `t` (all activity by `t`, then silence) settles whenever
`t + idleWindow < maxTimeout`, whereas after a request that cancels the
initial timer before it fires, request events alone can never make the wait
settle: it rejects at `maxTimeout`. -/
theorem idleTimer_reset_behavior :
    (∀ (timeout idleTime : Nat) (evs : List (Nat × NetEvent)) (t : Nat),
        (∀ p ∈ evs, p.1 ≤ t) → t + idleTime < timeout →
        (waitForNetworkIdle timeout idleTime (evs ++ [(t, NetEvent.response)])).isSettled =
          true) ∧
    (∀ (timeout idleTime t0 : Nat) (rest : List (Nat × NetEvent)),
        t0 < idleTime → (∀ p ∈ rest, p.2 = NetEvent.request) →
        waitForNetworkIdle timeout idleTime ((t0, NetEvent.request) :: rest) =
          IdleResult.rejected "Network idle timeout") := by
  constructor
  · intro timeout idleTime evs t hle hlt
    obtain ⟨d, hd, hdle⟩ := firstIdleFire_last_response idleTime evs t hle (some idleTime)
    have hdlt : d < timeout := Nat.lt_of_le_of_lt hdle hlt
    simp [waitForNetworkIdle, hd, hdlt, IdleResult.isSettled]
  · intro timeout idleTime t0 rest h0 hreq
    have hni : ¬ idleTime ≤ t0 := Nat.not_le_of_lt h0
    have : firstIdleFire idleTime (some idleTime) ((t0, NetEvent.request) :: rest) =
        firstIdleFire idleTime none rest := by
      simp [firstIdleFire, hni, handleEvent]
    rw [waitForNetworkIdle, this, firstIdleFire_requests_none idleTime rest hreq]

/-- C5 witness: a lone response at time 0 settles; a lone request at time
100 (before the initial 500 ms idle deadline) leads to rejection. -/
theorem idleTimer_reset_behavior_witness :
    (waitForNetworkIdle 30000 500 [(0, NetEvent.response)]).isSettled = true ∧
    waitForNetworkIdle 30000 500 [(100, NetEvent.request)] =
      IdleResult.rejected "Network idle timeout" := by
  constructor
  · have h := idleTimer_reset_behavior.1 30000 500 [] 0 (by simp) (by norm_num)
    simpa using h
  · exact idleTimer_reset_behavior.2 30000 500 100 [] (by norm_num) (by simp)

/- #### C4: a quiescence timeout is fatal, not degraded -/

/-- C4 counterexample: a request at time 0 with no response cancels the idle
timer for good, so `maxTimeout` is reached without the idle timer firing —
and the wait rejects with `Error('Network idle timeout')`, which
`safeWaitForLoadState` propagates to its caller instead of resolving as a
non-fatal timed-out outcome. -/
theorem quiescenceTimeout_counterexample :
    waitForNetworkIdle 30000 500 [(0, NetEvent.request)] =
      IdleResult.rejected "Network idle timeout" ∧
    safeWaitForLoadState [(0, NetEvent.request)] = JsResult.err "Network idle timeout" ∧
    safeWaitForLoadState [(0, NetEvent.request)] ≠ JsResult.ok () := by decide

/-- C4 (amended): whenever the quiescence wait does not settle — the idle
timer never fires before `maxTimeout` — `waitForNetworkIdle` rejects with
the `'Network idle timeout'` error and `safeWaitForLoadState`, which awaits
it without a catch, propagates that same error to its caller; the caller
does not proceed as if the page had loaded. -/
theorem quiescenceTimeout_propagates (trace : List (Nat × NetEvent))
    (h : (waitForNetworkIdle 30000 500 trace).isSettled = false) :
    safeWaitForLoadState trace = JsResult.err "Network idle timeout" := by
  unfold safeWaitForLoadState
  unfold waitForNetworkIdle at h ⊢
  rcases hf : firstIdleFire 500 (some 500) trace with _ | d
  · simp [hf]
  · rw [hf] at h
    by_cases hd : d < 30000
    · simp [hd, IdleResult.isSettled] at h
    · simp [hd]

/-- C4 witness: the propagation applied to the lone-request trace. -/
theorem quiescenceTimeout_propagates_witness :
    safeWaitForLoadState [(0, NetEvent.request)] = JsResult.err "Network idle timeout" :=
  quiescenceTimeout_propagates [(0, NetEvent.request)] (by decide)

/- #### Helper lemmas for C8 -/

/-- When some selector's result passes the threshold, the loop breaks on the
first such result, whatever container was previously current. -/
theorem selectContainerLoop_firstPassing (page : String → Option DomElement)
    (sels : List String) (el : DomElement)
    (h : firstPassingContainer page sels = some el) (current : Option DomElement) :
    selectContainerLoop page sels current = some el := by
  induction sels generalizing current with
  | nil => simp [firstPassingContainer] at h
  | cons sel rest ih =>
      by_cases hp : passesThreshold (page sel)
      · rw [firstPassingContainer] at h
        rw [if_pos hp] at h
        simpa [selectContainerLoop, hp] using h
      · rw [firstPassingContainer] at h
        rw [if_neg hp] at h
        simpa [selectContainerLoop, hp] using ih h (page sel)

/-- When no selector's result passes the threshold, the loop leaves the last
`querySelector` result in `contentContainer`. -/
theorem selectContainerLoop_noPassing (page : String → Option DomElement)
    (sels : List String) (h : firstPassingContainer page sels = none)
    (current : Option DomElement) :
    selectContainerLoop page sels current = lastQueryResult page sels current := by
  induction sels generalizing current with
  | nil => rfl
  | cons sel rest ih =>
      by_cases hp : passesThreshold (page sel)
      · rw [firstPassingContainer, if_pos hp] at h
        rcases hq : page sel with _ | e
        · rw [hq] at hp; simp [passesThreshold] at hp
        · rw [hq] at h; simp at h
      · rw [firstPassingContainer, if_neg hp] at h
        simpa [selectContainerLoop, lastQueryResult, hp] using ih h (page sel)

/-- Over the concrete selector list, the final current container is the
last selector's query result. -/
theorem lastQueryResult_contentSelectors (page : String → Option DomElement) :
    lastQueryResult page contentSelectors none = page "[class*=\"content\"]" := rfl

/- #### C8: minimum-content threshold in `extractChapterContent` -/

/-- C8 counterexample: on a skeleton page where no candidate container's
text exceeds the 100-character threshold but the final fallback selector
matches a short placeholder, `extractChapterContent` does not fail — it
returns the below-threshold container. -/
theorem extractContent_threshold_counterexample :
    (contentSelectors.all fun sel => !(passesThreshold (skeletonPage sel))) = true ∧
    extractContentContainer skeletonPage = JsResult.ok { text := "Loading..." } ∧
    extractContentContainer skeletonPage ≠ JsResult.err "Content container not found" := by
  decide

/-- C8 (amended): the loop does select the first candidate container whose
trimmed text exceeds 100 characters; but when no candidate passes the
threshold, the last selector's match (if any) is used as the container —
below threshold — and the `'Content container not found'` error is thrown
only when the last selector `[class*="content"]` matches no element at all. -/
theorem extractContent_selection (page : String → Option DomElement) :
    (∀ el, firstPassingContainer page contentSelectors = some el →
        extractContentContainer page = JsResult.ok el) ∧
    (firstPassingContainer page contentSelectors = none →
      ∀ el, page "[class*=\"content\"]" = some el →
        extractContentContainer page = JsResult.ok el) ∧
    (firstPassingContainer page contentSelectors = none →
      page "[class*=\"content\"]" = none →
        extractContentContainer page = JsResult.err "Content container not found") := by
  refine ⟨?_, ?_, ?_⟩
  · intro el h
    unfold extractContentContainer
    rw [selectContainerLoop_firstPassing page contentSelectors el h none]
  · intro h el hq
    unfold extractContentContainer
    rw [selectContainerLoop_noPassing page contentSelectors h none,
      lastQueryResult_contentSelectors, hq]
  · intro h hq
    unfold extractContentContainer
    rw [selectContainerLoop_noPassing page contentSelectors h none,
      lastQueryResult_contentSelectors, hq]

/-- C8 witness: on a fully rendered page the first selector's container
(150 characters of text) is selected. -/
theorem extractContent_selection_witness :
    extractContentContainer richPage = JsResult.ok { text := longChapterText } :=
  (extractContent_selection richPage).1 { text := longChapterText } (by decide)

/- #### Helper lemmas for C2 -/

/-- A list of strings round-trips through its JSON array form. -/
theorem parseStrList_map (ss : List String) : parseStrList (ss.map Json.str) = some ss := by
  induction ss with
  | nil => rfl
  | cons s rest ih => simp [parseStrList, Json.asStr, ih]

/-- One chapter entry round-trips through its JSON object form. -/
theorem chapterInfo_roundtrip (c : ChapterInfo) : ChapterInfo.ofJson c.toJson = some c := by
  obtain ⟨i, id, t, u⟩ := c
  rfl

/-- The chapters array round-trips. -/
theorem parseChapterList_map (cs : List ChapterInfo) :
    parseChapterList (cs.map ChapterInfo.toJson) = some cs := by
  induction cs with
  | nil => rfl
  | cons c rest ih => simp [parseChapterList, chapterInfo_roundtrip, ih]

/-- The metadata object round-trips through its JSON form (optional fields
omitted when absent are read back as absent). -/
theorem novelMetadata_roundtrip (m : NovelMetadata) :
    NovelMetadata.ofJson m.toJson = some m := by
  obtain ⟨title, author, coverUrl, synopsis, tags, status, total, src, crawled⟩ := m
  cases author <;> cases coverUrl <;> cases synopsis <;> cases tags <;> cases status <;>
    simp [NovelMetadata.toJson, NovelMetadata.ofJson, optField, Json.getField, lookupField,
      Json.asStr, Json.asNat, Json.asArr, parseStrList_map]

/-- Reading the `metadata` field back: a serialized metadata object is an
object (never `null`), so the non-null arm applies and the object
round-trips. -/
theorem metadataOfField_some (m : NovelMetadata) :
    metadataOfField (some m.toJson) = some (some m) := by
  have hobj : metadataOfField (some m.toJson) = (NovelMetadata.ofJson m.toJson).map some := rfl
  rw [hobj, novelMetadata_roundtrip]
  rfl

/-- The full checkpoint round trip, computed: every field survives except
`lastUpdated`, which comes back as the string `JSON.stringify` produced for
it (a `Date` has become its ISO string). -/
theorem saveThenLoad_eq (S : CrawlState) :
    saveThenLoad S = some { S with lastUpdated := TimeVal.str S.lastUpdated.serialize } := by
  obtain ⟨url, metadata, chapters, lci, comp, lu⟩ := S
  cases metadata with
  | none =>
      simp [saveThenLoad, CrawlState.toJson, CrawlState.ofJson, Json.getField, lookupField,
        metadataOfField, completedOfField, Json.asStr, Json.asNat, Json.asArr,
        parseChapterList_map, parseStrList_map]
  | some m =>
      simp [saveThenLoad, CrawlState.toJson, CrawlState.ofJson, Json.getField, lookupField,
        completedOfField, Json.asStr, Json.asNat, Json.asArr,
        parseChapterList_map, parseStrList_map, metadataOfField_some]

/- #### C2: checkpoint save/load round trip -/

/-- C2 counterexample: a freshly initialized state (whose `lastUpdated` is a
`Date`) does not survive the round trip equal in every field —
`JSON.stringify` turns the `Date` into a string and `JSON.parse` leaves it
a string. -/
theorem checkpoint_roundtrip_counterexample :
    saveThenLoad freshSampleState ≠ some freshSampleState ∧
    saveThenLoad freshSampleState =
      some { freshSampleState with lastUpdated := TimeVal.str (toISOString 0) } := by decide

/-- C2 (amended): saving then loading preserves `url`, `metadata`,
`chapters`, `lastCompletedIndex` and `completedChapters` exactly, but maps
`lastUpdated` to the string it was serialized as; in particular a state
whose `lastUpdated` is already a string (as after any previous load)
round-trips equal in every field. -/
theorem checkpoint_roundtrip (S : CrawlState) :
    saveThenLoad S = some { S with lastUpdated := TimeVal.str S.lastUpdated.serialize } ∧
    (∀ s, S.lastUpdated = TimeVal.str s → saveThenLoad S = some S) := by
  refine ⟨saveThenLoad_eq S, ?_⟩
  intro s hs
  have hser : TimeVal.str S.lastUpdated.serialize = S.lastUpdated := by
    rw [hs]
    rfl
  rw [saveThenLoad_eq S, hser]

/-- C2 witness: a loaded-back state (string `lastUpdated`) round-trips
exactly. -/
theorem checkpoint_roundtrip_witness :
    saveThenLoad sampleLoadedState = some sampleLoadedState :=
  (checkpoint_roundtrip sampleLoadedState).2 "epoch-ms:12345" rfl

/- #### C9: a checkpoint-save write failure propagates -/

/-- C9 counterexample: with a failing underlying write, `saveState` does not
return normally — its result is the write's rejection, propagated to the
caller. -/
theorem saveState_failure_counterexample :
    saveState (fun _ _ => JsResult.err "EACCES: permission denied") {} freshSampleState =
      JsResult.err "EACCES: permission denied" ∧
    saveState (fun _ _ => JsResult.err "EACCES: permission denied") {} freshSampleState ≠
      JsResult.ok () := by
  exact ⟨rfl, by simp [saveState]⟩

/-- C9 (amended): `saveState` has no `try`/`catch` around the write — its
outcome is exactly the outcome of writing the serialized state to
`outputDir/state.json`, so a write failure rejects `saveState` itself and
the error reaches the caller; nothing is caught or logged inside it. -/
theorem saveState_no_catch (write : String → Json → JsResult Unit) (config : ScraperConfig)
    (state : CrawlState) (msg : String)
    (h : write (stateFilePath config.outputDir) state.toJson = JsResult.err msg) :
    saveState write config state = JsResult.err msg := by
  simpa [saveState] using h

/-- C9 witness: the propagation instantiated at a concrete failing writer. -/
theorem saveState_no_catch_witness :
    saveState (fun _ _ => JsResult.err "ENOSPC") {} freshSampleState = JsResult.err "ENOSPC" :=
  saveState_no_catch (fun _ _ => JsResult.err "ENOSPC") {} freshSampleState "ENOSPC" rfl

/-- C10 witness: a concrete commit sequence that retries chapter 1 twice
still leaves pairwise-distinct completed ids. -/
theorem completedChapters_nodup_witness :
    (commitAll [(sampleChapter 1, 5), (sampleChapter 1, 9), (sampleChapter 2, 12)]
      (initState "https://mtlbooks.com/novel/x" 0)).completedChapters.Nodup :=
  completedChapters_nodup "https://mtlbooks.com/novel/x" 0
    [(sampleChapter 1, 5), (sampleChapter 1, 9), (sampleChapter 2, 12)]
